import Mathlib

/-
Verification of the Math2Model GPU-side adaptive subdivision renderer
(`renderer-core/src/renderer.rs` and its collaborators) against its
natural-language specification.

The Rust code is shallowly embedded: per-frame GPU command recording is
modelled as a list of commands together with a small-step state over the
per-model buffers; host-side registry and model-list updates are modelled
as pure functions.  Machine floats (`f32`) are modelled as rationals.
Definitions whose Rust source is not part of the extracted sources are
marked `Modelled from the spec:` in their doc comment.
-/

deriving instance DecidableEq for Except

namespace Math2Model

/-- Fixed constant from `renderer.rs`: `MAX_PATCH_COUNT = 100_000`. -/
def MAX_PATCH_COUNT : Nat := 100000

/-- Fixed constant from `renderer.rs`: `PATCH_SIZES = [2, 4, 8, 16, 32]`. -/
def PATCH_SIZES : List Nat := [2, 4, 8, 16, 32]

/-! ## Surface acquisition and frame results (`render_component`, C1) -/

/-- The `wgpu::SurfaceError` variants matched by `render_component`. -/
inductive SurfaceError where
  | timeout
  | outdated
  | lost
  | outOfMemory
  | other
  deriving DecidableEq

/-- `RenderResults` from `renderer.rs`; `profiler_results` payloads are
external profiler data, modelled as opaque units. -/
structure RenderResults where
  delta_time : ℚ
  profiler_results : Option (List Unit)
  deriving DecidableEq

/-- `RenderResults::default()`: zero delta time, no profiler results. -/
def RenderResults.default : RenderResults :=
  { delta_time := 0, profiler_results := none }

/-- `RenderResults::skip()` simply returns the default value. -/
def RenderResults.skip : RenderResults := RenderResults.default

/-- Outcome of the surface-acquire step at the top of the per-frame closure
in `render_component`: either the frame proceeds to record GPU commands, or
it returns early with a result, possibly after recreating the swapchain. -/
inductive AcquireStep where
  | proceed
  | earlyReturn (recreated_swapchain : Bool) (result : Except SurfaceError RenderResults)
  deriving DecidableEq

/-- The surface-acquire `match` of `render_component` (`renderer.rs:297-307`):
on `Ok` the frame proceeds; on `Err(Lost | Outdated)` the swapchain is
recreated and `err.map(|_| RenderResults::skip())` is returned; on any other
error the same mapped error is returned without recreating.  Note that
`Result::map` leaves an `Err` untouched. -/
def render_acquire (acquire : Except SurfaceError Unit) : AcquireStep :=
  match acquire with
  | .ok _ => .proceed
  | .error SurfaceError.lost =>
      .earlyReturn true (Except.map (fun _ => RenderResults.skip) acquire)
  | .error SurfaceError.outdated =>
      .earlyReturn true (Except.map (fun _ => RenderResults.skip) acquire)
  | .error _ =>
      .earlyReturn false (Except.map (fun _ => RenderResults.skip) acquire)

/-! ## Threshold factor (`GpuApplication::set_threshold_factor`, C8) -/

/-- Rust `f32::clamp(lo, hi)` on non-NaN inputs, with `f32` modelled as `ℚ`. -/
def f32_clamp (x lo hi : ℚ) : ℚ :=
  if x < lo then lo else if hi < x then hi else x

/-- Initial value of the `threshold_factor` signal (`renderer.rs:96`). -/
def threshold_factor_initial : ℚ := 1

/-- `GpuApplication::set_threshold_factor` stores
`factor.clamp(0.0001, 100000.0)` (`renderer.rs:196-199`). -/
def set_threshold_factor_stored (factor : ℚ) : ℚ :=
  f32_clamp factor (1 / 10000) 100000

/-! ## Shader registry (`GpuApplication::set_shader`, C5, C6) -/

abbrev ShaderId := String

/-- `crate::game::ShaderInfo`.  Modelled from the spec: `game.rs` is not under
`src/`; `set_shader` reads its `label` and `code` fields. -/
structure ShaderInfo where
  label : String
  code : String
  deriving DecidableEq

/-- `virtual_model::ShaderPipelines`.  Modelled from the spec:
`virtual_model.rs` is not under `src/`; a pipeline pair is identified by the
label and WGSL source it was compiled from
(`ShaderPipelines::new(&info.label, &info.code, &context)`). -/
structure ShaderPipelines where
  label : String
  code : String
  deriving DecidableEq

/-- `ShaderPipelines::new` keyed by label and source code. -/
def ShaderPipelines.new (label : String) (code : String) : ShaderPipelines :=
  { label := label, code := code }

/-- `wgpu::CompilationMessageType`. -/
inductive CompilationMessageType where
  | error
  | warning
  | info
  deriving DecidableEq

/-- `wgpu::CompilationMessage`, reduced to the fields `set_shader` inspects. -/
structure CompilationMessage where
  message_type : CompilationMessageType
  message : String
  deriving DecidableEq

/-- The shader registry `HashMap<ShaderId, Arc<ShaderPipelines>>` as a map. -/
abbrev ShaderRegistry := ShaderId → Option ShaderPipelines

/-- The completion of one `GpuApplication::set_shader(id, info, callback)`
call (`renderer.rs:131-151`): build the new pipelines, check the compilation
messages for an `Error`, invoke the callback (when supplied) with all
messages, and insert into the registry only when no error occurred.
Returns the new registry and the `(id, messages)` delivered to the callback. -/
def set_shader_complete (shaders : ShaderRegistry) (shader_id : ShaderId)
    (info : ShaderInfo) (compilation_results : List CompilationMessage)
    (has_callback : Bool) :
    ShaderRegistry × Option (ShaderId × List CompilationMessage) :=
  let new_shaders := ShaderPipelines.new info.label info.code
  let is_error :=
    compilation_results.any fun v => v.message_type == CompilationMessageType.error
  let delivered :=
    if has_callback then some (shader_id, compilation_results) else none
  let shaders' :=
    if is_error then shaders
    else fun k => if k = shader_id then some new_shaders else shaders k
  (shaders', delivered)

/-- `make_missing_shader` (`virtual_model.rs`).  Modelled from the spec:
`virtual_model.rs` is not under `src/`; the fallback is a single pipeline
pair, constructed once in `GpuApplication::new` (`renderer.rs:99`) and stored
in the reactive context, that renders a magenta patch and performs a trivial
one-level subdivision. -/
def make_missing_shader : ShaderPipelines :=
  { label := "Missing Shader"
    code := "fallback: magenta patch material, one-level subdivision" }

/-! ## Model data (`crate::game`, C6, C9, C10) -/

/-- `Transform` (`mesh.rs:15-19`), with floats modelled as rationals. -/
structure Transform where
  position : ℚ × ℚ × ℚ
  rotation : ℚ × ℚ × ℚ × ℚ
  scale : ℚ
  deriving DecidableEq

/-- `crate::game::MaterialInfo`.  Modelled from the spec: `game.rs` is not
under `src/`; a material carries a color and shading scalars. -/
structure MaterialInfo where
  color : ℚ × ℚ × ℚ
  emissive : ℚ × ℚ × ℚ
  roughness : ℚ
  deriving DecidableEq

/-- `crate::game::ModelInfo`.  Modelled from the spec: `game.rs` is not under
`src/`; spec section 6 gives the fields
`{ id, shader_id, transform, instance_count, material_info }` with structural
equality. -/
structure ModelInfo where
  id : String
  shader_id : ShaderId
  transform : Transform
  instance_count : Nat
  material_info : MaterialInfo
  deriving DecidableEq

/-- The shader lookup memo of `lod_stage_component` (`renderer.rs:741-749`):
the registry entry for the model's `shader_id`, or the context-provided
missing-shader fallback. -/
def lod_stage_shader (shaders : ShaderRegistry) (model : ModelInfo) : ShaderPipelines :=
  (shaders model.shader_id).getD make_missing_shader

/-- The shader lookup memo of `render_model_component`
(`renderer.rs:879-887`): the registry entry for the model's `shader_id`, or
the same context-provided missing-shader fallback. -/
def render_stage_shader (shaders : ShaderRegistry) (model : ModelInfo) : ShaderPipelines :=
  (shaders model.shader_id).getD make_missing_shader

/-! ## Patch queues and the typed GPU buffer (C2) -/

/-- `compute_patches::EncodedPatch`: the `(u, v, instance)` triple.  The
`instance` field is named `inst` here. -/
structure EncodedPatch where
  u : Nat
  v : Nat
  inst : Nat
  deriving DecidableEq

/-- `compute_patches::Patches`: a work queue header plus its runtime array. -/
structure Patches where
  patches_length : Nat
  patches_capacity : Nat
  patches : List EncodedPatch
  deriving DecidableEq

/-- `compute_patches::RenderBuffer`: a render bin, same shape as `Patches`. -/
structure RenderBuffer where
  patches_length : Nat
  patches_capacity : Nat
  patches : List EncodedPatch
  deriving DecidableEq

/-- `compute_patches::DispatchIndirectArgs`. -/
structure DispatchIndirectArgs where
  x : Nat
  y : Nat
  z : Nat
  deriving DecidableEq

/-- Byte stride of an `EncodedPatch` (three `u32` fields). -/
def encodedPatchStride : Nat := 12

/-- Byte size of the `Patches` header (`patches_length` and
`patches_capacity`, two `u32` fields). -/
def patchesHeadSize : Nat := 8

/-- Serialized byte size of a `Patches` value: header plus one stride per
array element. -/
def patchesSerializedSize (p : Patches) : Nat :=
  patchesHeadSize + p.patches.length * encodedPatchStride

/-- Allocation size of a patches buffer created with
`new_storage_with_runtime_array` for `capacity` elements. -/
def patchesAllocationSize (capacity : Nat) : Nat :=
  patchesHeadSize + capacity * encodedPatchStride

/-- Error raised by an oversized typed-buffer write. -/
inductive BufferWriteError where
  | encodingError
  deriving DecidableEq

/-- `TypedBuffer::write_buffer` for a `Patches` value.  Modelled from the
spec: `buffer.rs` is not under `src/`; spec section 4.1 states that `write`
fails with `EncodingError` if the value's serialized size exceeds the
allocation. -/
def typedBufferWritePatches (capacity : Nat) (value : Patches) :
    Except BufferWriteError Unit :=
  if patchesSerializedSize value ≤ patchesAllocationSize capacity then .ok ()
  else .error BufferWriteError.encodingError

/-- The seed value written into `patches_buffer[0]` by `lod_stage_component`
(`renderer.rs:767-783`): length `instance_count`, capacity
`MAX_PATCH_COUNT`, and one root patch `(u = 1, v = 1, instance = i)` per
instance.  Note that the length and the array are not clamped to
`MAX_PATCH_COUNT`. -/
def seedPatches (instance_count : Nat) : Patches :=
  { patches_length := instance_count
    patches_capacity := MAX_PATCH_COUNT
    patches := (List.range instance_count).map fun i => { u := 1, v := 1, inst := i } }

/-- Outcome of the per-frame seed write of queue 0: a `TypedBuffer` write of
`seedPatches instance_count` into a buffer allocated for `MAX_PATCH_COUNT`
patches. -/
def seed_write_result (instance_count : Nat) : Except BufferWriteError Unit :=
  typedBufferWritePatches MAX_PATCH_COUNT (seedPatches instance_count)

/-- The reset value written into every render bin each frame
(`renderer.rs:793-800`). -/
def render_buffer_reset : RenderBuffer :=
  { patches_length := 0, patches_capacity := MAX_PATCH_COUNT, patches := [] }

/-! ## The LOD stage command trace (`lod_stage_component`, C2, C3, C4, C9) -/

/-- The buffers named by LOD-stage copy and dispatch commands; the two work
queues and the two indirect-dispatch-args buffers are indexed 0 and 1. -/
inductive LodBuf where
  | patches_buffer (i : Nat)
  | indirect_compute_buffer (i : Nat)
  | force_render_uniform
  | patches_buffer_reset
  | indirect_compute_buffer_reset
  | force_render_false
  | force_render_true
  deriving DecidableEq

/-- One host write or encoder command recorded by `lod_stage_component`'s
per-frame closure (`renderer.rs:751-862`). -/
inductive LodCmd where
  | write_force_render (flag : Nat)
  | write_input_buffer
  | write_patches (i : Nat) (value : Patches)
  | write_indirect (i : Nat) (value : DispatchIndirectArgs)
  | write_render_bin (k : Nat) (value : RenderBuffer)
  | copy_all_from (src dst : LodBuf)
  | dispatch_indirect (bind_group : Nat) (args : LodBuf)
  | dispatch_workgroups (x y z : Nat)
  | lod_override_call (shader_id : ShaderId) (model_id : String)
  deriving DecidableEq

/-- The per-frame host writes preceding the subdivision loop
(`renderer.rs:755-800`): force-render flag to 0, the input uniform, the
queue-0 seed, the dispatch args `{x: instance_count, y: 1, z: 1}`, and the
reset of all five render bins. -/
def seedCommands (instance_count : Nat) : List LodCmd :=
  [ LodCmd.write_force_render 0,
    LodCmd.write_input_buffer,
    LodCmd.write_patches 0 (seedPatches instance_count),
    LodCmd.write_indirect 0 { x := instance_count, y := 1, z := 1 } ]
  ++ (List.range 5).map fun k => LodCmd.write_render_bin k render_buffer_reset

/-- `double_number_of_rounds` (`renderer.rs:807`). -/
def double_number_of_rounds : Nat := 4

/-- One iteration of the subdivision loop (`renderer.rs:808-851`): reset the
destination queue and its dispatch args by copies from the reset buffers,
dispatch indirectly with bind group 2\[0\], then symmetrically with bind
group 2\[1\]; on the last round the force-render flag is copied to 1 between
the two dispatches and back to 0 after the second one. -/
def subdivisionRound (i : Nat) : List LodCmd :=
  let is_last_round := i == double_number_of_rounds - 1
  [ LodCmd.copy_all_from .patches_buffer_reset (.patches_buffer 1),
    LodCmd.copy_all_from .indirect_compute_buffer_reset (.indirect_compute_buffer 1),
    LodCmd.dispatch_indirect 0 (.indirect_compute_buffer 0) ]
  ++ (if is_last_round then
        [LodCmd.copy_all_from .force_render_true .force_render_uniform] else [])
  ++ [ LodCmd.copy_all_from .patches_buffer_reset (.patches_buffer 0),
       LodCmd.copy_all_from .indirect_compute_buffer_reset (.indirect_compute_buffer 0),
       LodCmd.dispatch_indirect 1 (.indirect_compute_buffer 1) ]
  ++ (if is_last_round then
        [LodCmd.copy_all_from .force_render_false .force_render_uniform] else [])

/-- The full command trace of `lod_stage_component`'s closure for one model
and one frame: the seed writes, then either the single override call
(`renderer.rs:802-803`) or the four ping-pong/pong-ping rounds, then the
final `copy_patches` consolidation dispatch of one workgroup
(`renderer.rs:853-861`). -/
def lodStageCommands (model : ModelInfo) (has_lod_override : Bool) : List LodCmd :=
  seedCommands model.instance_count
  ++ (if has_lod_override then [LodCmd.lod_override_call model.shader_id model.id]
      else (List.range double_number_of_rounds).flatMap subdivisionRound)
  ++ [LodCmd.dispatch_workgroups 1 1 1]

/-- The LOD-stage commands of a whole frame: one `lod_stage_component` run
per model, in model order (`renderer.rs:328-330`). -/
def frameLodCommands (models : List ModelInfo) (has_lod_override : Bool) : List LodCmd :=
  models.flatMap fun m => lodStageCommands m has_lod_override

/-- The `compute_patches` bind group 2 entry: indices of the source queue,
the destination queue, and the destination dispatch-args buffer. -/
structure BindGroup2 where
  patches_from_buffer : Nat
  patches_to_buffer : Nat
  dispatch_next : Nat
  deriving DecidableEq

/-- The two pre-built bind group 2 values (`renderer.rs:720-739`): entry 0
reads queue 0 and writes queue 1 and dispatch args 1; entry 1 is swapped. -/
def bind_group_2 : List BindGroup2 :=
  [ { patches_from_buffer := 0, patches_to_buffer := 1, dispatch_next := 1 },
    { patches_from_buffer := 1, patches_to_buffer := 0, dispatch_next := 0 } ]

/-! ## Semantics of the trace over the per-model buffer state -/

/-- Observable per-model buffer state: the two queue lengths, the two
indirect dispatch args, the force-render flag, and the five bin lengths. -/
structure LodState where
  patches_length_0 : Nat
  patches_length_1 : Nat
  indirect_0 : DispatchIndirectArgs
  indirect_1 : DispatchIndirectArgs
  force_render_flag : Nat
  bin_length_2 : Nat
  bin_length_4 : Nat
  bin_length_8 : Nat
  bin_length_16 : Nat
  bin_length_32 : Nat
  deriving DecidableEq

/-- Effect of one recorded command on the buffer state.  Copies from the
reset buffers write length 0 resp. `{x: 0, y: 1, z: 1}` resp. the flag
value; dispatches and the override call leave the host-visible state
unchanged (kernel effects are not modelled). -/
def lodStep (s : LodState) : LodCmd → LodState
  | .write_force_render f => { s with force_render_flag := f }
  | .write_input_buffer => s
  | .write_patches 0 v => { s with patches_length_0 := v.patches_length }
  | .write_patches 1 v => { s with patches_length_1 := v.patches_length }
  | .write_patches _ _ => s
  | .write_indirect 0 v => { s with indirect_0 := v }
  | .write_indirect 1 v => { s with indirect_1 := v }
  | .write_indirect _ _ => s
  | .write_render_bin 0 v => { s with bin_length_2 := v.patches_length }
  | .write_render_bin 1 v => { s with bin_length_4 := v.patches_length }
  | .write_render_bin 2 v => { s with bin_length_8 := v.patches_length }
  | .write_render_bin 3 v => { s with bin_length_16 := v.patches_length }
  | .write_render_bin 4 v => { s with bin_length_32 := v.patches_length }
  | .write_render_bin _ _ => s
  | .copy_all_from .patches_buffer_reset (.patches_buffer 0) =>
      { s with patches_length_0 := 0 }
  | .copy_all_from .patches_buffer_reset (.patches_buffer 1) =>
      { s with patches_length_1 := 0 }
  | .copy_all_from .indirect_compute_buffer_reset (.indirect_compute_buffer 0) =>
      { s with indirect_0 := { x := 0, y := 1, z := 1 } }
  | .copy_all_from .indirect_compute_buffer_reset (.indirect_compute_buffer 1) =>
      { s with indirect_1 := { x := 0, y := 1, z := 1 } }
  | .copy_all_from .force_render_true .force_render_uniform =>
      { s with force_render_flag := 1 }
  | .copy_all_from .force_render_false .force_render_uniform =>
      { s with force_render_flag := 0 }
  | .copy_all_from _ _ => s
  | .dispatch_indirect _ _ => s
  | .dispatch_workgroups _ _ _ => s
  | .lod_override_call _ _ => s

/-- Run a command list from a state. -/
def runLod (s : LodState) : List LodCmd → LodState
  | [] => s
  | c :: cs => runLod (lodStep s c) cs

/-- Pair every command with the state just before it executes. -/
def statesBefore (s : LodState) : List LodCmd → List (LodCmd × LodState)
  | [] => []
  | c :: cs => (c, s) :: statesBefore (lodStep s c) cs

/-- One indirect subdivision dispatch: its bind group index, the buffer its
dispatch arguments are read from, and the buffer state just before it. -/
structure DispatchInfo where
  bind_group : Nat
  args : LodBuf
  pre : LodState
  deriving DecidableEq

/-- All indirect subdivision dispatches of a trace, each with its pre-state. -/
def lodDispatchInfos (s : LodState) (cmds : List LodCmd) : List DispatchInfo :=
  (statesBefore s cmds).filterMap fun x =>
    match x with
    | (.dispatch_indirect bg args, st) => some { bind_group := bg, args := args, pre := st }
    | _ => none

/-- Queue length of the given ping-pong index in a state. -/
def queueLength (s : LodState) (i : Nat) : Nat :=
  if i = 0 then s.patches_length_0 else s.patches_length_1

/-- Indirect dispatch args of the given ping-pong index in a state. -/
def indirectArgs (s : LodState) (i : Nat) : DispatchIndirectArgs :=
  if i = 0 then s.indirect_0 else s.indirect_1

/-- The bind group 2 entry used by a dispatch, by index. -/
def bindGroup2At (j : Nat) : BindGroup2 :=
  bind_group_2.getD j { patches_from_buffer := 0, patches_to_buffer := 0, dispatch_next := 0 }

/-- Recognizer for indirect subdivision dispatches. -/
def isDispatchIndirect : LodCmd → Bool
  | .dispatch_indirect _ _ => true
  | _ => false

/-- Recognizer for the LOD-override call. -/
def isLodOverrideCall : LodCmd → Bool
  | .lod_override_call _ _ => true
  | _ => false

/-- The arguments of an override call, when the command is one. -/
def overrideArgsOf : LodCmd → Option (ShaderId × String)
  | .lod_override_call s i => some (s, i)
  | _ => none

/-! ## The render stage command trace (`render_model_component`, C7) -/

/-- A tessellated quad mesh, identified by its number of splits.  Modelled
from the spec: `Mesh::new_tesselated_quad` is not under `src/` (the extracted
`mesh.rs` predates it); spec section 2.8 describes five static meshes, one
per patch size, and `renderer.rs:265-272` builds them with
`splits = size / 2 - 1`. -/
structure TesselatedQuadMesh where
  splits : Nat
  deriving DecidableEq

/-- The five quad meshes, in `PATCH_SIZES` order (`renderer.rs:266-272`). -/
def quad_meshes : List TesselatedQuadMesh :=
  PATCH_SIZES.map fun size => { splits := size / 2 - 1 }

/-- Byte stride of `copy_patches::DrawIndexedIndirectArgs` in the indirect
draw buffer's runtime array.  Modelled from the spec: the generated shader
bindings are not under `src/`; the record holds the five `u32` fields
`{index_count, instance_count, first_index, base_vertex, first_instance}`. -/
def drawIndexedIndirectArgsStride : Nat := 5 * 4

/-- The render-bin bind groups of `render_model_component`
(`renderer.rs:908-923`): one per entry of `virtual_model.render_buffer`,
which holds the five render bins in `PATCH_SIZES` order. -/
def render_bind_group_1 : List Nat := List.range PATCH_SIZES.length

/-- One command recorded into the render pass by `render_model_component`'s
closure (`renderer.rs:937-959`). -/
inductive RenderCmd where
  | set_pipeline
  | set_bind_groups (bin_index : Nat)
  | set_vertex_buffer (slot : Nat) (mesh : TesselatedQuadMesh)
  | set_index_buffer (mesh : TesselatedQuadMesh)
  | draw_indexed_indirect (buffer_offset : Nat)
  deriving DecidableEq

/-- The render-stage command trace for one model: set the pipeline, then for
each `(bind group, mesh)` pair, in order and with its running index `i`, set
the bind groups, the mesh's vertex and index buffers, and issue an indirect
indexed draw at byte offset `i * stride` into the model's indirect-draw
buffer (`renderer.rs:937-959`). -/
def render_model_commands : List RenderCmd :=
  RenderCmd.set_pipeline ::
  ((render_bind_group_1.zip quad_meshes).enum.flatMap fun x =>
    match x with
    | (i, bg, mesh) =>
      [ RenderCmd.set_bind_groups bg,
        RenderCmd.set_vertex_buffer 0 mesh,
        RenderCmd.set_index_buffer mesh,
        RenderCmd.draw_indexed_indirect (i * drawIndexedIndirectArgsStride) ])

/-- A draw call together with the binding context in force when it was
issued: the last-set bin bind group, vertex-buffer mesh, and index-buffer
mesh, plus the draw's byte offset into the indirect-draw buffer. -/
structure DrawRecord where
  bin_index : Option Nat
  vertex_mesh : Option TesselatedQuadMesh
  index_mesh : Option TesselatedQuadMesh
  buffer_offset : Nat
  deriving DecidableEq

/-- Walk a render trace, tracking the current bindings and emitting one
`DrawRecord` per draw command. -/
def recordedDraws : List RenderCmd → Option Nat → Option TesselatedQuadMesh →
    Option TesselatedQuadMesh → List DrawRecord
  | [], _, _, _ => []
  | .set_pipeline :: cs, bg, vm, im => recordedDraws cs bg vm im
  | .set_bind_groups b :: cs, _, vm, im => recordedDraws cs (some b) vm im
  | .set_vertex_buffer _ m :: cs, bg, _, im => recordedDraws cs bg (some m) im
  | .set_index_buffer m :: cs, bg, vm, _ => recordedDraws cs bg vm (some m)
  | .draw_indexed_indirect off :: cs, bg, vm, im =>
      { bin_index := bg, vertex_mesh := vm, index_mesh := im, buffer_offset := off }
        :: recordedDraws cs bg vm im

/-! ## Model list synchronisation (`update_models`, C10) -/

/-- A `SignalVec` slot: the stored `ModelInfo` together with the number of
times its signal has been written (`model.set(..)` calls).  Modelled from
the spec for `reactive.rs` (not under `src/`): a signal write stores the new
value and notifies; skipping the write leaves the count unchanged. -/
abbrev ModelSignal := ModelInfo × Nat

/-- The first loop of `update_models` (`renderer.rs:963-968`): walk the
existing slots and the incoming models in lockstep; a slot whose value
already equals the incoming model is left untouched, otherwise the signal is
set to the incoming model. -/
def zipUpdate : List ModelSignal → List ModelInfo → List ModelSignal
  | [], _ => []
  | ms, [] => ms
  | (m, c) :: ms, g :: gs =>
      (if m = g then (m, c) else (g, c + 1)) :: zipUpdate ms gs

/-- `update_models` (`renderer.rs:962-978`): after the lockstep pass, compare
the lengths; push the missing trailing models (fresh signals), or truncate
the surplus slots. -/
def update_models (models : List ModelSignal) (game_models : List ModelInfo) :
    List ModelSignal :=
  let models' := zipUpdate models game_models
  match compare models.length game_models.length with
  | .lt => models' ++ (game_models.drop models.length).map fun g => (g, 0)
  | .eq => models'
  | .gt => models'.take game_models.length

/-! ## Sample data for concrete witnesses -/

/-- A concrete transform. -/
def sampleTransform : Transform :=
  { position := (0, 0, 0), rotation := (0, 0, 0, 1), scale := 1 }

/-- A concrete material. -/
def sampleMaterial : MaterialInfo :=
  { color := (1, 0, 1), emissive := (0, 0, 0), roughness := 1 }

/-- A concrete model with three instances. -/
def sampleModel : ModelInfo :=
  { id := "model-1"
    shader_id := "shader-1"
    transform := sampleTransform
    instance_count := 3
    material_info := sampleMaterial }

/-- A second concrete model, differing from `sampleModel` in its id. -/
def sampleModel2 : ModelInfo :=
  { id := "model-2"
    shader_id := "shader-2"
    transform := sampleTransform
    instance_count := 1
    material_info := sampleMaterial }

/-! ## Theorems -/

/-- C1: evaluating the surface-acquire step of `render_component` at the
claim's inputs.  On `Lost` and `Outdated` the swapchain is recreated and the
frame records no GPU commands, and on every other error it is not recreated
— but in all error cases the function returns the error itself rather than
`Ok` with `delta_time = 0`: `err.map(|_| RenderResults::skip())` maps the
`Ok` variant of an `Err`, so it leaves the error untouched and
`RenderResults::skip()` (whose `delta_time` is indeed 0) never executes. -/
theorem C1_surface_lost_returns_error :
    render_acquire (.error SurfaceError.lost)
      = .earlyReturn true (.error SurfaceError.lost) ∧
    render_acquire (.error SurfaceError.outdated)
      = .earlyReturn true (.error SurfaceError.outdated) ∧
    render_acquire (.error SurfaceError.timeout)
      = .earlyReturn false (.error SurfaceError.timeout) ∧
    render_acquire (.error SurfaceError.outOfMemory)
      = .earlyReturn false (.error SurfaceError.outOfMemory) ∧
    render_acquire (.error SurfaceError.other)
      = .earlyReturn false (.error SurfaceError.other) ∧
    render_acquire (.ok ()) = .proceed ∧
    RenderResults.skip.delta_time = 0 := by
  exact ⟨rfl, rfl, rfl, rfl, rfl, rfl, rfl⟩

/-- C8: `set_threshold_factor` stores `clamp(f, 0.0001, 100000.0)` — the Rust
branch structure agrees with the order-theoretic clamp — so the stored
threshold factor always lies in `[10⁻⁴, 10⁵]`, and the signal's initial
value is 1. -/
theorem C8_threshold_clamp :
    (∀ f : ℚ, set_threshold_factor_stored f = max (1 / 10000) (min f 100000)) ∧
    (∀ f : ℚ, 1 / 10000 ≤ set_threshold_factor_stored f ∧
      set_threshold_factor_stored f ≤ 100000) ∧
    threshold_factor_initial = 1 ∧
    1 / 10000 ≤ threshold_factor_initial ∧ threshold_factor_initial ≤ 100000 := by
  refine ⟨?_, ?_, rfl, by norm_num [threshold_factor_initial], by norm_num [threshold_factor_initial]⟩
  · intro f
    unfold set_threshold_factor_stored f32_clamp
    split_ifs with h1 h2
    · rw [min_eq_left (by linarith), max_eq_left (by linarith)]
    · rw [min_eq_right (by linarith), max_eq_right (by norm_num)]
    · rw [min_eq_left (by linarith), max_eq_right (by linarith)]
  · intro f
    unfold set_threshold_factor_stored f32_clamp
    split_ifs with h1 h2
    · exact ⟨le_refl _, by norm_num⟩
    · exact ⟨by norm_num, le_refl _⟩
    · exact ⟨by linarith, by linarith⟩

/-- C5: on completion of `set_shader(id, info, callback)`, the compilation
messages are delivered to the callback exactly when one was supplied; if any
message has type `Error` the registry is left entirely unchanged; otherwise
the new pipeline pair compiled from `info` is installed under `id` and every
other entry is unchanged. -/
theorem C5_set_shader_registry (shaders : ShaderRegistry) (shader_id : ShaderId)
    (info : ShaderInfo) (msgs : List CompilationMessage) :
    (set_shader_complete shaders shader_id info msgs true).2 = some (shader_id, msgs) ∧
    (set_shader_complete shaders shader_id info msgs false).2 = none ∧
    ((∃ m ∈ msgs, m.message_type = CompilationMessageType.error) →
      ∀ hc, (set_shader_complete shaders shader_id info msgs hc).1 = shaders) ∧
    ((∀ m ∈ msgs, m.message_type ≠ CompilationMessageType.error) →
      ∀ hc, (set_shader_complete shaders shader_id info msgs hc).1 shader_id
          = some (ShaderPipelines.new info.label info.code) ∧
        ∀ k, k ≠ shader_id →
          (set_shader_complete shaders shader_id info msgs hc).1 k = shaders k) := by
  refine ⟨rfl, rfl, ?_, ?_⟩
  · rintro ⟨m, hm, hmt⟩ hc
    have herr : (msgs.any fun v => v.message_type == CompilationMessageType.error) = true :=
      List.any_eq_true.mpr ⟨m, hm, by simp [hmt]⟩
    simp [set_shader_complete, herr]
  · intro hno hc
    have herr : (msgs.any fun v => v.message_type == CompilationMessageType.error) = false := by
      simp only [List.any_eq_false]
      intro m hm
      simpa using hno m hm
    constructor
    · simp [set_shader_complete, herr]
    · intro k hk
      simp [set_shader_complete, herr, hk]

/-- C5 witness: with an empty registry, an error message leaves the registry
empty while a clean compile installs the pipelines under the id; the
messages reach the callback. -/
theorem C5_set_shader_registry_witness :
    (set_shader_complete (fun _ => none) ("m1") { label := "lbl", code := "code" }
      [{ message_type := CompilationMessageType.error, message := "boom" }] true).1
      = (fun _ => none) ∧
    (set_shader_complete (fun _ => none) ("m1") { label := "lbl", code := "code" }
      [] true).1 ("m1") = some (ShaderPipelines.new ("lbl") ("code")) ∧
    (set_shader_complete (fun _ => none) ("m1") { label := "lbl", code := "code" }
      [] true).2 = some (("m1"), []) := by
  refine ⟨?_, ?_, ?_⟩
  · exact (C5_set_shader_registry (fun _ => none) ("m1") { label := "lbl", code := "code" }
      [{ message_type := CompilationMessageType.error, message := "boom" }]).2.2.1
      ⟨{ message_type := CompilationMessageType.error, message := "boom" }, by simp, rfl⟩ true
  · exact ((C5_set_shader_registry (fun _ => none) ("m1") { label := "lbl", code := "code" }
      []).2.2.2 (by simp) true).1
  · exact (C5_set_shader_registry (fun _ => none) ("m1") { label := "lbl", code := "code" } []).1

/-- C6: whenever the registry has no entry for a model's `shader_id`, the
LOD-stage lookup and the render-stage lookup both resolve to the single
context-provided missing-shader pipeline pair, and hence to the same
pipeline pair as each other. -/
theorem C6_fallback_shared (shaders : ShaderRegistry) (model : ModelInfo)
    (h : shaders model.shader_id = none) :
    lod_stage_shader shaders model = make_missing_shader ∧
    render_stage_shader shaders model = make_missing_shader ∧
    lod_stage_shader shaders model = render_stage_shader shaders model := by
  simp [lod_stage_shader, render_stage_shader, h]

/-- C6 witness: the empty registry misses `sampleModel`'s shader id and both
stages fall back to the shared missing shader. -/
theorem C6_fallback_shared_witness :
    lod_stage_shader (fun _ => none) sampleModel = make_missing_shader ∧
    render_stage_shader (fun _ => none) sampleModel = make_missing_shader ∧
    lod_stage_shader (fun _ => none) sampleModel
      = render_stage_shader (fun _ => none) sampleModel :=
  C6_fallback_shared (fun _ => none) sampleModel rfl

/-- C7: the render stage records exactly five indirect indexed draws, one
per render bin in the fixed order of `PATCH_SIZES = [2, 4, 8, 16, 32]`; the
i-th draw is issued with bin i's bind group, with bin i's tessellated quad
mesh (splits `PATCH_SIZES[i] / 2 - 1`) bound as both vertex and index
buffer, and at byte offset `i * stride(DrawIndexedIndirectArgs)` into the
model's indirect-draw buffer. -/
theorem C7_render_bins_draws :
    PATCH_SIZES = [2, 4, 8, 16, 32] ∧
    recordedDraws render_model_commands none none none =
      (List.range 5).map (fun i =>
        { bin_index := some i
          vertex_mesh := quad_meshes[i]?
          index_mesh := quad_meshes[i]?
          buffer_offset := i * drawIndexedIndirectArgsStride }) ∧
    quad_meshes = [{ splits := 0 }, { splits := 1 }, { splits := 3 },
      { splits := 7 }, { splits := 15 }] ∧
    (recordedDraws render_model_commands none none none).map
      (fun d => d.buffer_offset) = [0, 20, 40, 60, 80] := by
  refine ⟨rfl, by decide, by decide, by decide⟩

/-- The seed queue always holds exactly `instance_count` patches. -/
theorem seedPatches_length (instance_count : Nat) :
    (seedPatches instance_count).patches.length = instance_count := by
  simp [seedPatches]

/-- The seed write of queue 0 succeeds exactly when `instance_count` fits the
`MAX_PATCH_COUNT`-element allocation, and otherwise raises the encoding
error. -/
theorem seed_write_eq (instance_count : Nat) :
    seed_write_result instance_count
      = (if instance_count ≤ MAX_PATCH_COUNT then .ok ()
         else .error BufferWriteError.encodingError) := by
  unfold seed_write_result typedBufferWritePatches
  simp only [patchesSerializedSize, patchesAllocationSize, seedPatches_length]
  rcases le_or_lt instance_count MAX_PATCH_COUNT with h | h
  · rw [if_pos, if_pos h]
    exact Nat.add_le_add_left (Nat.mul_le_mul_right _ h) _
  · rw [if_neg (not_le.mpr h), if_neg]
    intro hle
    have hstride : 0 < encodedPatchStride := by norm_num [encodedPatchStride]
    have := Nat.le_of_add_le_add_left hle
    have := Nat.le_of_mul_le_mul_right this hstride
    omega

/-- C2 counterexample: at `instance_count = 100 001` the seed write sets
queue 0's length field to 100 001, not to
`min(instance_count, MAX_PATCH_COUNT) = 100 000`, and the unclamped patch
array makes the write exceed its allocation, so it fails with an encoding
error instead of dropping the surplus seeds without error. -/
theorem C2_seed_overflow_counterexample :
    (seedPatches 100001).patches_length = 100001 ∧
    min 100001 MAX_PATCH_COUNT = 100000 ∧
    (((seedPatches 100001).patches_length == min 100001 MAX_PATCH_COUNT) = false) ∧
    seed_write_result 100001 = .error BufferWriteError.encodingError := by
  refine ⟨rfl, by decide, by decide, ?_⟩
  rw [seed_write_eq 100001, if_neg (by decide)]

/-- C2 (amended): before the first subdivision dispatch the seed writes set
queue 0's length to `instance_count` (not clamped), with patch `i` equal to
`(u = 1, v = 1, instance = i)`, set the dispatch args to
`{instance_count, 1, 1}`, reset all five render bins to length 0 and the
force-render flag to 0; the queue-0 write succeeds exactly when
`instance_count ≤ MAX_PATCH_COUNT` and otherwise fails with an encoding
error.  The nine seed commands are the prefix of the frame trace, before any
subdivision dispatch. -/
theorem C2_seed_writes (s0 : LodState) (m : ModelInfo) :
    (seedPatches m.instance_count).patches_length = m.instance_count ∧
    (seedPatches m.instance_count).patches_capacity = MAX_PATCH_COUNT ∧
    (seedPatches m.instance_count).patches.map (fun p => p.u)
      = List.replicate m.instance_count 1 ∧
    (seedPatches m.instance_count).patches.map (fun p => p.v)
      = List.replicate m.instance_count 1 ∧
    (seedPatches m.instance_count).patches.map (fun p => p.inst)
      = List.range m.instance_count ∧
    seed_write_result m.instance_count
      = (if m.instance_count ≤ MAX_PATCH_COUNT then .ok ()
         else .error BufferWriteError.encodingError) ∧
    (runLod s0 (seedCommands m.instance_count)).patches_length_0 = m.instance_count ∧
    (runLod s0 (seedCommands m.instance_count)).indirect_0
      = { x := m.instance_count, y := 1, z := 1 } ∧
    (runLod s0 (seedCommands m.instance_count)).force_render_flag = 0 ∧
    (runLod s0 (seedCommands m.instance_count)).bin_length_2 = 0 ∧
    (runLod s0 (seedCommands m.instance_count)).bin_length_4 = 0 ∧
    (runLod s0 (seedCommands m.instance_count)).bin_length_8 = 0 ∧
    (runLod s0 (seedCommands m.instance_count)).bin_length_16 = 0 ∧
    (runLod s0 (seedCommands m.instance_count)).bin_length_32 = 0 ∧
    (lodStageCommands m false).take 9 = seedCommands m.instance_count ∧
    ((seedCommands m.instance_count).countP isDispatchIndirect) = 0 := by
  refine ⟨rfl, rfl, ?_, ?_, ?_, seed_write_eq m.instance_count,
    rfl, rfl, rfl, rfl, rfl, rfl, rfl, rfl, rfl, rfl⟩
  · simp [seedPatches, List.map_map, Function.comp_def, List.map_const']
  · simp [seedPatches, List.map_map, Function.comp_def, List.map_const']
  · simp [seedPatches, List.map_map, Function.comp_def]

/-- C3: the built-in LOD loop records exactly eight indirect subdivision
dispatches; dispatch `i` uses bind group 2\[i mod 2\], whose layout reads
only queue `i mod 2` and writes queue `1 − i mod 2` and its dispatch args,
and reads its own dispatch arguments from buffer `i mod 2`; at the moment
dispatch `i` is recorded the destination queue's length is 0 and the
destination dispatch args are `{0, 1, 1}` — for an arbitrary initial buffer
state, so the resets come from the recorded reset copies, of which there are
four per queue and four per dispatch-args buffer. -/
theorem C3_ping_pong_schedule (s0 : LodState) (m : ModelInfo) :
    (lodDispatchInfos s0 (lodStageCommands m false)).length = 8 ∧
    ((lodStageCommands m false).countP isDispatchIndirect) = 8 ∧
    (lodDispatchInfos s0 (lodStageCommands m false)).map (fun d => d.bind_group)
      = (List.range 8).map (fun i => i % 2) ∧
    (lodDispatchInfos s0 (lodStageCommands m false)).map (fun d => d.args)
      = (List.range 8).map (fun i => LodBuf.indirect_compute_buffer (i % 2)) ∧
    bind_group_2.map (fun b => b.patches_from_buffer) = [0, 1] ∧
    bind_group_2.map (fun b => b.patches_to_buffer) = [1, 0] ∧
    bind_group_2.map (fun b => b.dispatch_next) = [1, 0] ∧
    (lodDispatchInfos s0 (lodStageCommands m false)).map
      (fun d => queueLength d.pre (bindGroup2At d.bind_group).patches_to_buffer)
      = List.replicate 8 0 ∧
    (lodDispatchInfos s0 (lodStageCommands m false)).map
      (fun d => indirectArgs d.pre (bindGroup2At d.bind_group).dispatch_next)
      = List.replicate 8 { x := 0, y := 1, z := 1 } ∧
    ((lodStageCommands m false).countP
      (fun c => c == LodCmd.copy_all_from .patches_buffer_reset (.patches_buffer 0))) = 4 ∧
    ((lodStageCommands m false).countP
      (fun c => c == LodCmd.copy_all_from .patches_buffer_reset (.patches_buffer 1))) = 4 ∧
    ((lodStageCommands m false).countP
      (fun c => c == LodCmd.copy_all_from .indirect_compute_buffer_reset
        (.indirect_compute_buffer 0))) = 4 ∧
    ((lodStageCommands m false).countP
      (fun c => c == LodCmd.copy_all_from .indirect_compute_buffer_reset
        (.indirect_compute_buffer 1))) = 4 := by
  exact ⟨rfl, rfl, rfl, rfl, rfl, rfl, rfl, rfl, rfl, rfl, rfl, rfl, rfl⟩

/-- C4: in the built-in LOD loop the force-render flag uniform is written to
0 by the first host command of the frame, holds 0 at the recording of each
of the first seven subdivision dispatches and 1 at the eighth; it is copied
to 1 exactly once, after exactly seven dispatches have been recorded, copied
back to 0 exactly once, after all eight, and ends the frame at 0 — all for
an arbitrary initial buffer state. -/
theorem C4_force_render_schedule (s0 : LodState) (m : ModelInfo) :
    (lodDispatchInfos s0 (lodStageCommands m false)).map
      (fun d => d.pre.force_render_flag) = [0, 0, 0, 0, 0, 0, 0, 1] ∧
    (runLod s0 (lodStageCommands m false)).force_render_flag = 0 ∧
    (lodStageCommands m false).head? = some (LodCmd.write_force_render 0) ∧
    ((lodStageCommands m false).countP
      (fun c => c == LodCmd.copy_all_from .force_render_true .force_render_uniform)) = 1 ∧
    ((lodStageCommands m false).countP
      (fun c => c == LodCmd.copy_all_from .force_render_false .force_render_uniform)) = 1 ∧
    (((lodStageCommands m false).takeWhile
      (fun c => !(c == LodCmd.copy_all_from .force_render_true .force_render_uniform))).countP
        isDispatchIndirect) = 7 ∧
    (((lodStageCommands m false).takeWhile
      (fun c => !(c == LodCmd.copy_all_from .force_render_false .force_render_uniform))).countP
        isDispatchIndirect) = 8 := by
  exact ⟨rfl, rfl, rfl, rfl, rfl, rfl, rfl⟩

/-- With an override supplied, a frame's LOD trace makes exactly one
override call per model, in model order, with the model's shader id and id. -/
theorem frame_override_calls (models : List ModelInfo) :
    (frameLodCommands models true).filterMap overrideArgsOf
      = models.map fun mm => (mm.shader_id, mm.id) := by
  induction models with
  | nil => rfl
  | cons mm ms ih =>
      have hsplit : frameLodCommands (mm :: ms) true
          = lodStageCommands mm true ++ frameLodCommands ms true := rfl
      have hone : (lodStageCommands mm true).filterMap overrideArgsOf
          = [(mm.shader_id, mm.id)] := rfl
      rw [hsplit, List.filterMap_append, hone, ih, List.map_cons, List.singleton_append]

/-- C9: with a `lod_stage` override supplied, the built-in subdivision loop
is skipped (no indirect dispatch is recorded) and exactly one override call
is recorded, carrying the model's shader id and id; the nine seed commands
are identical to the non-override path's, the trace still ends with the
single `1×1×1` consolidation dispatch recorded exactly once, and over a
whole frame the override is called once per model in model order. -/
theorem C9_lod_override (m : ModelInfo) (models : List ModelInfo) :
    ((lodStageCommands m true).countP isDispatchIndirect) = 0 ∧
    ((lodStageCommands m true).countP isLodOverrideCall) = 1 ∧
    (lodStageCommands m true).filterMap overrideArgsOf = [(m.shader_id, m.id)] ∧
    (lodStageCommands m true).take 9 = seedCommands m.instance_count ∧
    (lodStageCommands m false).take 9 = seedCommands m.instance_count ∧
    (lodStageCommands m true).getLast? = some (LodCmd.dispatch_workgroups 1 1 1) ∧
    ((lodStageCommands m true).countP
      (fun c => c == LodCmd.dispatch_workgroups 1 1 1)) = 1 ∧
    ((lodStageCommands m false).countP
      (fun c => c == LodCmd.dispatch_workgroups 1 1 1)) = 1 ∧
    (frameLodCommands models true).filterMap overrideArgsOf
      = models.map (fun mm => (mm.shader_id, mm.id)) := by
  exact ⟨rfl, rfl, rfl, rfl, rfl, rfl, rfl, rfl, frame_override_calls models⟩

/-- `zipUpdate` keeps the slot count of its first argument. -/
theorem zipUpdate_length (ms : List ModelSignal) (gs : List ModelInfo) :
    (zipUpdate ms gs).length = ms.length := by
  induction ms generalizing gs with
  | nil => cases gs <;> rfl
  | cons p ms ih =>
      rcases p with ⟨m, c⟩
      cases gs with
      | nil => rfl
      | cons g gs => simp [zipUpdate, ih]

/-- The stored values after the lockstep pass: the incoming models where
both lists have entries, the old surplus beyond the incoming length. -/
theorem zipUpdate_map_fst (ms : List ModelSignal) (gs : List ModelInfo) :
    (zipUpdate ms gs).map Prod.fst
      = gs.take ms.length ++ (ms.map Prod.fst).drop gs.length := by
  induction ms generalizing gs with
  | nil => simp [zipUpdate]
  | cons p ms ih =>
      rcases p with ⟨m, c⟩
      cases gs with
      | nil => simp [zipUpdate]
      | cons g gs =>
          simp only [zipUpdate, List.map_cons, List.take_succ_cons, List.drop_succ_cons,
            List.cons_append, ih]
          congr 1
          by_cases h : m = g
          · simp [h]
          · simp [h]

/-- A slot whose value equals its incoming counterpart is untouched by the
lockstep pass. -/
theorem zipUpdate_getElem_eq (ms : List ModelSignal) (gs : List ModelInfo)
    (i : Nat) (m : ModelInfo) (c : Nat) (g : ModelInfo)
    (hm : ms[i]? = some (m, c)) (hg : gs[i]? = some g) (heq : m = g) :
    (zipUpdate ms gs)[i]? = some (m, c) := by
  induction ms generalizing gs i with
  | nil => simp at hm
  | cons p ms ih =>
      rcases p with ⟨m', c'⟩
      cases gs with
      | nil => simp at hg
      | cons g' gs =>
          cases i with
          | zero =>
              simp only [List.getElem?_cons_zero, Option.some_inj] at hm hg
              cases hm
              cases hg
              simp [zipUpdate, heq]
          | succ i =>
              simp only [List.getElem?_cons_succ] at hm hg
              simpa [zipUpdate] using ih gs i hm hg

/-- C10: after `update_models(models, game_models)` the stored values are
exactly `game_models` — equal prefixes kept, changed entries overwritten,
surplus truncated, missing entries appended in order — and a slot whose
value already equals its incoming counterpart keeps its write count, i.e.
its signal is not set. -/
theorem C10_update_models (ms : List ModelSignal) (gs : List ModelInfo) :
    (update_models ms gs).map Prod.fst = gs ∧
    (∀ (i : Nat) (m : ModelInfo) (c : Nat) (g : ModelInfo),
      ms[i]? = some (m, c) → gs[i]? = some g → m = g →
      (update_models ms gs)[i]? = some (m, c)) := by
  constructor
  · unfold update_models
    rcases Nat.lt_trichotomy ms.length gs.length with hlt | hequ | hgt
    · rw [Nat.compare_eq_lt.mpr hlt]
      rw [List.map_append, zipUpdate_map_fst, List.map_map]
      have hdrop : (ms.map Prod.fst).drop gs.length = [] :=
        List.drop_eq_nil_of_le (by simpa using le_of_lt hlt)
      have hmap : (gs.drop ms.length).map (Prod.fst ∘ fun g => (g, 0)) = gs.drop ms.length := by
        simp [Function.comp_def]
      rw [hdrop, hmap, List.append_nil, List.take_append_drop]
    · rw [Nat.compare_eq_eq.mpr hequ]
      rw [zipUpdate_map_fst, hequ]
      have hdrop : (ms.map Prod.fst).drop gs.length = [] :=
        List.drop_eq_nil_of_le (by simp [hequ.le, hequ])
      rw [hdrop, List.append_nil, List.take_length]
    · rw [Nat.compare_eq_gt.mpr hgt]
      rw [List.map_take, zipUpdate_map_fst]
      have htake : gs.take ms.length = gs := List.take_of_length_le (le_of_lt hgt)
      rw [htake, List.take_append_of_le_length le_rfl, List.take_length]
  · intro i m c g hm hg heq
    have hi : i < ms.length := by
      by_contra hcon
      rw [List.getElem?_eq_none (le_of_not_lt hcon)] at hm
      exact Option.noConfusion hm
    have hj : i < gs.length := by
      by_contra hcon
      rw [List.getElem?_eq_none (le_of_not_lt hcon)] at hg
      exact Option.noConfusion hg
    have hz : (zipUpdate ms gs)[i]? = some (m, c) :=
      zipUpdate_getElem_eq ms gs i m c g hm hg heq
    rcases Nat.lt_trichotomy ms.length gs.length with hlt | hequ | hgt
    · simp only [update_models, Nat.compare_eq_lt.mpr hlt]
      rw [List.getElem?_append_left (by rw [zipUpdate_length]; exact hi)]
      exact hz
    · simp only [update_models, Nat.compare_eq_eq.mpr hequ]
      exact hz
    · simp only [update_models, Nat.compare_eq_gt.mpr hgt]
      rw [List.getElem?_take, if_pos hj]
      exact hz

/-- C10 witness: a one-slot list synchronised against two incoming models
takes the incoming values, appends the missing one, and keeps the write
count of the untouched equal slot. -/
theorem C10_update_models_witness :
    (update_models [(sampleModel, 5)] [sampleModel, sampleModel2]).map Prod.fst
      = [sampleModel, sampleModel2] ∧
    (update_models [(sampleModel, 5)] [sampleModel, sampleModel2])[0]?
      = some (sampleModel, 5) :=
  ⟨(C10_update_models [(sampleModel, 5)] [sampleModel, sampleModel2]).1,
   (C10_update_models [(sampleModel, 5)] [sampleModel, sampleModel2]).2
     0 sampleModel 5 sampleModel rfl rfl rfl⟩

end Math2Model
